import Mathlib

/-!
Verification development for the snowva data-migration / integrity-repair
scripts.  The Python sources are shallowly embedded: each relevant script
function becomes a pure Lean function over an explicit entity store, and the
claims about the reconciliation engine, the cascading fixer, the integrity
verifier and the JSON round-trip are settled as theorems about those
functions.

String operations are modelled over `List Char` with the semantics of the
Python `str` methods actually used by the scripts (`replace` replaces every
occurrence of a non-empty pattern, `split` on a non-empty separator,
substring containment via `in`, `startswith`, slicing, `lower`, `strip`).
-/

namespace Snowva

/-- Python `pat in s` (substring containment) on character lists. -/
def listContainsSub (pat : List Char) : List Char → Bool
  | [] => pat.isEmpty
  | c :: rest => pat.isPrefixOf (c :: rest) || listContainsSub pat rest

/-- Python `pat in s` on strings. -/
def strContains (s pat : String) : Bool :=
  listContainsSub pat.data s.data

/-- Fuel-driven worker for `strReplace`; the fuel is the length of the
subject list, which suffices because every step consumes at least one
character. -/
def replChars (pat rep : List Char) : Nat → List Char → List Char
  | _, [] => []
  | 0, s => s
  | fuel + 1, c :: rest =>
    if !pat.isEmpty && pat.isPrefixOf (c :: rest) then
      rep ++ replChars pat rep fuel (List.drop pat.length (c :: rest))
    else
      c :: replChars pat rep fuel rest

/-- Python `s.replace(pat, rep)` for the non-empty patterns used by the
scripts (replaces every occurrence, left to right). -/
def strReplace (s pat rep : String) : String :=
  ⟨replChars pat.data rep.data s.data.length s.data⟩

/-- Fuel-driven worker for `strSplitOn`. -/
def splitChars (sep : List Char) : Nat → List Char → List Char → List (List Char)
  | _, acc, [] => [acc.reverse]
  | 0, acc, s => [acc.reverse ++ s]
  | fuel + 1, acc, c :: rest =>
    if !sep.isEmpty && sep.isPrefixOf (c :: rest) then
      acc.reverse :: splitChars sep fuel [] (List.drop sep.length (c :: rest))
    else
      splitChars sep fuel (c :: acc) rest

/-- Python `s.split(sep)` for a non-empty separator. -/
def strSplitOn (s sep : String) : List String :=
  (splitChars sep.data s.data.length [] s.data).map String.mk

/-- Python `s.startswith(p)`. -/
def strStartsWith (s p : String) : Bool :=
  p.data.isPrefixOf s.data

/-- Python slicing `s[n:]`. -/
def strDrop (s : String) (n : Nat) : String :=
  ⟨s.data.drop n⟩

/-- Python `s.lower()` for the ASCII identifiers used by the scripts. -/
def strToLower (s : String) : String :=
  ⟨s.data.map Char.toLower⟩

/-- Python `s.strip()` (trim whitespace at both ends). -/
def strTrim (s : String) : String :=
  ⟨((s.data.dropWhile Char.isWhitespace).reverse.dropWhile Char.isWhitespace).reverse⟩

/-- Python `parts[-1]` for the never-empty result of a split. -/
def lastOrEmpty (l : List String) : String :=
  l.getLastD ""

/-- Python `parts[0]` for the never-empty result of a split. -/
def headOrEmpty (l : List String) : String :=
  l.headD ""

/-- Python dict lookup on an association list (first binding wins). -/
def assocFind {α : Type} (m : List (String × α)) (k : String) : Option α :=
  (m.find? (fun kv => kv.1 == k)).map (fun kv => kv.2)

/-- The guard `old_product_id in mapping and mapping[old_product_id]` used by
`fix_product_references`: a binding whose value is `None` or the empty string
is treated as absent (Python truthiness). -/
def lookupTruthy (m : List (String × Option String)) (k : String) : Option String :=
  match assocFind m k with
  | some (some v) => if v == "" then none else some v
  | _ => none

/-! ## Data model

The four collections of `data/normalized`, as the scripts read them:
products, customers (with their `customProductPricing` sub-records),
invoices and quotes (line items), payments (allocations). -/

structure Product where
  id : String
  name : String
deriving DecidableEq, Repr

structure Price where
  id : String
  amount : Nat
deriving DecidableEq, Repr

structure Pricing where
  id : String
  productId : String
  prices : List Price
deriving DecidableEq, Repr

structure Customer where
  id : String
  parentCompanyId : Option String
  customProductPricing : List Pricing
deriving DecidableEq, Repr

structure LineItem where
  id : String
  productId : String
  quantity : Nat
deriving DecidableEq, Repr

structure Invoice where
  id : String
  customerId : Option String
  lineItems : List LineItem
deriving DecidableEq, Repr

structure Allocation where
  invoiceId : Option String
  amount : Nat
deriving DecidableEq, Repr

structure Payment where
  id : String
  customerId : Option String
  allocatedInvoices : List Allocation
deriving DecidableEq, Repr

/-- The in-memory entity store (quotes share the invoice shape, exactly as
`fixDataIntegrity.py` treats them). -/
structure Store where
  products : List Product
  customers : List Customer
  invoices : List Invoice
  quotes : List Invoice
  payments : List Payment
deriving DecidableEq, Repr

/-- Reference index for products: `{product["id"] for product in products}`. -/
def productIdsOf (st : Store) : List String :=
  st.products.map Product.id

/-- Reference index for customers. -/
def customerIdsOf (st : Store) : List String :=
  st.customers.map Customer.id

/-- Reference index for invoices. -/
def invoiceIdsOf (st : Store) : List String :=
  st.invoices.map Invoice.id

/-! ## Reconciliation engine -/

/-- The `clean_search` normalisation of strategy 3 in
`finalCustomerFix.create_comprehensive_customer_mapping`:
`invalid_ref.replace("cust_", "").replace("__", "_").lower()`. -/
def cleanSearchOf (ref : String) : String :=
  strToLower (strReplace (strReplace ref "cust_" "") "__" "_")

/-- Per-reference body of the mapping loop of
`finalCustomerFix.create_comprehensive_customer_mapping` (lines 62-117):
strategy 1 strips the `cust_` prefix, strategy 2 splits the full reference on
`__` and tries only the last part, strategy 3 is the containment fallback on
the lower-cased cleaned reference, strategy 4 tries three literal variations.
The Python set of valid ids is modelled as a list fixing one iteration
order. -/
def proposeComprehensive (ref : String) (valids : List String) : Option String :=
  if strStartsWith ref "cust_" && decide (strDrop ref 5 ∈ valids) then
    some (strDrop ref 5)
  else if strStartsWith ref "cust_" && strContains ref "__"
      && decide (2 ≤ (strSplitOn ref "__").length)
      && decide (lastOrEmpty (strSplitOn ref "__") ∈ valids) then
    some (lastOrEmpty (strSplitOn ref "__"))
  else
    match valids.find? (fun a =>
        strContains (strToLower a) (cleanSearchOf ref)
        || strContains (cleanSearchOf ref) (strToLower a)) with
    | some a => some a
    | none =>
      valids.find? (fun a =>
        a == strReplace ref "cust_" ""
        || a == strTrim (strReplace (strReplace ref "cust_" "") "_" " ")
        || a == (if strContains ref "_" then lastOrEmpty (strSplitOn ref "_") else ref))

/-- Per-reference body of `fixCustomerReferences.create_customer_mapping`
(lines 39-72): everything is guarded by the `cust_` prefix; then direct match
of the stripped remainder, then compound split on `__` trying the last part
and then the first part, then three underscore variations in order. -/
def proposeCustomerMapping (ref : String) (valids : List String) : Option String :=
  if strStartsWith ref "cust_" then
    if decide (strDrop ref 5 ∈ valids) then
      some (strDrop ref 5)
    else if strContains (strDrop ref 5) "__"
        && decide (lastOrEmpty (strSplitOn (strDrop ref 5) "__") ∈ valids) then
      some (lastOrEmpty (strSplitOn (strDrop ref 5) "__"))
    else if strContains (strDrop ref 5) "__"
        && decide (headOrEmpty (strSplitOn (strDrop ref 5) "__") ∈ valids) then
      some (headOrEmpty (strSplitOn (strDrop ref 5) "__"))
    else
      [strReplace (strDrop ref 5) "__" "_",
       strReplace (strDrop ref 5) "_" "",
       strReplace (strDrop ref 5) " " "_"].find? (fun v => decide (v ∈ valids))
  else
    none

/-- Per-reference body of `DataIntegrityFixer.create_customer_id_mapping`
(lines 282-314): only references with the `cust_` prefix get a dictionary
entry at all; the entry value may be `None` (no match found).  The outer
`none` means no entry was created. -/
def createCustomerIdMappingEntry (ref : String) (valids : List String) :
    Option (Option String) :=
  if strStartsWith ref "cust_" then
    if strContains (strDrop ref 5) "plettenberg_bay" then
      some (some "plettenberg_bay")
    else if strContains (strDrop ref 5) "pretoria_caravans" then
      some (some "pretoria_caravans_outdoor")
    else if strContains (strDrop ref 5) "sportsmans_warehouse" then
      some (if strContains (strDrop ref 5) "__" then
              (if decide (lastOrEmpty (strSplitOn (strDrop ref 5) "__") ∈ valids) then
                some (lastOrEmpty (strSplitOn (strDrop ref 5) "__"))
              else none)
            else (if decide (("" : String) ∈ valids) then some "" else none))
    else
      match [strDrop ref 5,
             strReplace (strDrop ref 5) "__" "_",
             strReplace (strDrop ref 5) "_" ""].find? (fun v => decide (v ∈ valids)) with
      | some v => some (some v)
      | none => some none
  else
    none

/-- The hard-coded product-id mapping table of
`DataIntegrityFixer.create_product_id_mapping` (lines 158-197), in source
order; `"v"` is explicitly mapped to `None` (skip, data corruption). -/
def createProductIdMapping : List (String × Option String) :=
  [("snowva_ultimate_ice_maker", some "prod_snowva"),
   ("outray", some "prod_outray"),
   ("makabrai", some "prod_makabrai"),
   ("borki", some "prod_borki"),
   ("braai_bak_2_5l", some "prod_braai_bak_2_5l"),
   ("braai_bak_3_8l", some "prod_braai_bak_3_8l"),
   ("braai_bak_5_2l", some "prod_braai_bak_5_2l"),
   ("braai_grid_large", some "prod_braai_grid_large"),
   ("braai_grid_medium", some "prod_braai_grid_medium"),
   ("braai_grid_small", some "prod_braai_grid_small"),
   ("snowva_ultimate_ice_tray_blue_assorted", some "prod_snowva"),
   ("outray_travel_tray", some "prod_outray"),
   ("braaitas", some "prod_braai_tas"),
   ("borki_handmade", some "prod_borki"),
   ("makabrai_grid_25x25", some "prod_makabrai"),
   ("makabrai_grid_40x30", some "prod_makabrai"),
   ("makabrai_grid_40x50", some "prod_makabrai"),
   ("makabrai_grid_50x40", some "prod_makabrai"),
   ("braai_bak_5_5l", some "prod_braai_bak_5_2l"),
   ("v", none)]

/-- Collection of invalid customer references from invoices and payments in
`create_comprehensive_customer_mapping` (lines 41-54): a reference is
collected when the `customerId` field is present, truthy, and absent from
the set of actual customer ids. -/
def invalidCustomerRefs (invoices : List Invoice) (payments : List Payment)
    (valids : List String) : List String :=
  ((invoices.filterMap Invoice.customerId) ++ (payments.filterMap Payment.customerId)).filter
    (fun c => c != "" && !(decide (c ∈ valids)))

/-- The comprehensive customer mapping built by
`create_comprehensive_customer_mapping`: one proposed target per mappable
invalid reference. -/
def buildComprehensiveCustomerMapping (invoices : List Invoice)
    (payments : List Payment) (valids : List String) : List (String × String) :=
  (invalidCustomerRefs invoices payments valids).filterMap
    (fun r => (proposeComprehensive r valids).map (fun t => (r, t)))

/-! ## Cascading fixer -/

/-- Fix of one customer pricing sub-record in
`DataIntegrityFixer.fix_product_references` (lines 205-227): when the mapping
holds a truthy target for the record's `productId`, the `productId` is
replaced, every occurrence of the old id in the pricing record's own `id` is
rewritten, and likewise in each nested price id. -/
def fixPricing (m : List (String × Option String)) (p : Pricing) : Pricing :=
  match lookupTruthy m p.productId with
  | some n =>
    { id := strReplace p.id p.productId n,
      productId := n,
      prices := p.prices.map (fun pr => { pr with id := strReplace pr.id p.productId n }) }
  | none => p

/-- Fix of one customer record: all pricing sub-records are processed. -/
def fixCustomer (m : List (String × Option String)) (c : Customer) : Customer :=
  { c with customProductPricing := c.customProductPricing.map (fixPricing m) }

/-- Fix of one invoice/quote line item in `fix_product_references`
(lines 232-262): only the `productId` field is replaced. -/
def fixLineItem (m : List (String × Option String)) (it : LineItem) : LineItem :=
  match lookupTruthy m it.productId with
  | some n => { it with productId := n }
  | none => it

/-- Fix of one invoice (or quote): every line item is processed. -/
def fixInvoiceItems (m : List (String × Option String)) (inv : Invoice) : Invoice :=
  { inv with lineItems := inv.lineItems.map (fixLineItem m) }

/-- True when the fixer's guard fires for a pricing record (it is counted as
one applied fix). -/
def pricingMatched (m : List (String × Option String)) (p : Pricing) : Bool :=
  (lookupTruthy m p.productId).isSome

/-- True when the fixer's guard fires for a line item. -/
def itemMatched (m : List (String × Option String)) (it : LineItem) : Bool :=
  (lookupTruthy m it.productId).isSome

/-- `DataIntegrityFixer.fix_product_references` (lines 199-265): fixes
customer pricing, invoice line items and quote line items, returning the new
store together with `fixes_applied`. -/
def fixProductReferences (m : List (String × Option String)) (st : Store) :
    Store × Nat :=
  ({ st with
      customers := st.customers.map (fixCustomer m),
      invoices := st.invoices.map (fixInvoiceItems m),
      quotes := st.quotes.map (fixInvoiceItems m) },
   (st.customers.map (fun c => c.customProductPricing.countP (pricingMatched m))).sum
   + (st.invoices.map (fun i => i.lineItems.countP (itemMatched m))).sum
   + (st.quotes.map (fun i => i.lineItems.countP (itemMatched m))).sum)

/-- Fix of one invoice customer reference in
`finalCustomerFix.apply_customer_fixes` (lines 149-167): `customerId` is
replaced when the mapping holds it; nothing else changes. -/
def fixInvCust (m : List (String × String)) (inv : Invoice) : Invoice :=
  match inv.customerId with
  | some c =>
    match assocFind m c with
    | some n => { inv with customerId := some n }
    | none => inv
  | none => inv

/-- Fix of one payment customer reference in `apply_customer_fixes`. -/
def fixPayCust (m : List (String × String)) (p : Payment) : Payment :=
  match p.customerId with
  | some c =>
    match assocFind m c with
    | some n => { p with customerId := some n }
    | none => p
  | none => p

/-- `finalCustomerFix.apply_customer_fixes`: rewrites invoice and payment
customer references and returns the total fix count. -/
def applyCustomerFixes (m : List (String × String)) (invoices : List Invoice)
    (payments : List Payment) : (List Invoice × List Payment) × Nat :=
  ((invoices.map (fixInvCust m), payments.map (fixPayCust m)),
   invoices.countP (fun i => (i.customerId.bind (assocFind m)).isSome)
   + payments.countP (fun p => (p.customerId.bind (assocFind m)).isSome))

/-- Decidable sufficient condition for idempotence of the product fixer: no
truthy mapping target is itself a key with a truthy value. -/
def mappingClosed (m : List (String × Option String)) : Bool :=
  m.all (fun kv =>
    match kv.2 with
    | some v => v == "" || (lookupTruthy m v).isNone
    | none => true)

/-- Decidable sufficient condition for idempotence of the customer fixer. -/
def mappingClosed2 (m : List (String × String)) : Bool :=
  m.all (fun kv => (assocFind m kv.2).isNone)

/-! ## Integrity verifier

Shallow embedding of `finalIntegrityCheck.verify_integrity` (lines 47-241).
The script checks the keys of the `customProductPricing` dictionary; each
key is a product id, which corresponds here to the `productId` field of the
pricing sub-records. -/

structure Violation where
  holderId : String
  invalidValue : String
deriving DecidableEq, Repr

/-- The per-field guard used for optional reference fields:
`if ref and ref not in ids` (Python truthiness skips `None` and `""`). -/
def badOptRef (ids : List String) : Option String → Bool
  | none => false
  | some c => c != "" && !(decide (c ∈ ids))

structure VerifyReport where
  customerProductErrors : List Violation
  invoiceCustomerErrors : List Violation
  invoiceProductErrors : List Violation
  paymentCustomerErrors : List Violation
  paymentInvoiceErrors : List Violation
  parentErrors : List Violation
deriving DecidableEq, Repr

/-- All six violation lists of `verify_integrity`, accumulated in full. -/
def verifyReport (st : Store) : VerifyReport :=
  { customerProductErrors :=
      (st.customers.map (fun c =>
        (c.customProductPricing.filter (fun p => !(decide (p.productId ∈ productIdsOf st)))).map
          (fun p => Violation.mk c.id p.productId))).flatten,
    invoiceCustomerErrors :=
      (st.invoices.filter (fun inv => badOptRef (customerIdsOf st) inv.customerId)).map
        (fun inv => Violation.mk inv.id (inv.customerId.getD "")),
    invoiceProductErrors :=
      (st.invoices.map (fun inv =>
        (inv.lineItems.filter (fun it =>
          it.productId != "" && !(decide (it.productId ∈ productIdsOf st)))).map
          (fun it => Violation.mk inv.id it.productId))).flatten,
    paymentCustomerErrors :=
      (st.payments.filter (fun p => badOptRef (customerIdsOf st) p.customerId)).map
        (fun p => Violation.mk p.id (p.customerId.getD "")),
    paymentInvoiceErrors :=
      (st.payments.map (fun p =>
        (p.allocatedInvoices.filter (fun a => badOptRef (invoiceIdsOf st) a.invoiceId)).map
          (fun a => Violation.mk p.id (a.invoiceId.getD "")))).flatten,
    parentErrors :=
      (st.customers.filter (fun c => badOptRef (customerIdsOf st) c.parentCompanyId)).map
        (fun c => Violation.mk c.id (c.parentCompanyId.getD "")) }

/-- The `total_errors` accumulator of `verify_integrity`. -/
def totalErrors (st : Store) : Nat :=
  (verifyReport st).customerProductErrors.length
  + (verifyReport st).invoiceCustomerErrors.length
  + (verifyReport st).invoiceProductErrors.length
  + (verifyReport st).paymentCustomerErrors.length
  + (verifyReport st).paymentInvoiceErrors.length
  + (verifyReport st).parentErrors.length

/-- The terminal status of `verify_integrity`: `True` (exit 0) exactly when
the accumulated error count is zero. -/
def verifySuccess (st : Store) : Bool :=
  totalErrors st == 0

/-- The per-customer slice of the product-reference analysis of
`DataIntegrityFixer.analyze_product_integrity`: one issue per pricing
sub-record whose `productId` is not a valid product id. -/
def customerPricingViolations (validP : List String) (c : Customer) :
    List (String × String) :=
  (c.customProductPricing.filter (fun p => !(decide (p.productId ∈ validP)))).map
    (fun p => (c.id, p.productId))

/-! ## JSON shape round-trip

`DataIntegrityFixer.load_all_data` (lines 51-68) and `save_fixed_data`
(lines 425-449).  A collection file is either a flat list of records or an
object keyed by identifier. -/

inductive CollJson (α : Type) where
  | jlist : List α → CollJson α
  | jobj : List (String × α) → CollJson α
deriving DecidableEq, Repr

/-- Shape of a collection file: `true` for the flat-list form. -/
def isListForm {α : Type} : CollJson α → Bool
  | .jlist _ => true
  | .jobj _ => false

/-- Loading of quotes: both forms are accepted; a list is keyed by id
(`{quote["id"]: quote for quote in quotes_data}`), an object is taken as
is. -/
def loadQuotes (j : CollJson Invoice) : List (String × Invoice) :=
  match j with
  | .jlist xs => xs.map (fun q => (q.id, q))
  | .jobj kvs => kvs

/-- Saving of quotes in `save_fixed_data`: always
`list(self.quotes.values())`, a flat list. -/
def saveQuotes (qs : List (String × Invoice)) : CollJson Invoice :=
  .jlist (qs.map Prod.snd)

/-- Loading of invoices: the file is assumed to be a flat list and keyed by
id. -/
def loadInvoices (xs : List Invoice) : List (String × Invoice) :=
  xs.map (fun i => (i.id, i))

/-- Saving of invoices: `list(self.invoices.values())`. -/
def saveInvoices (m : List (String × Invoice)) : CollJson Invoice :=
  .jlist (m.map Prod.snd)

/-- Loading of payments: flat list keyed by id. -/
def loadPayments (xs : List Payment) : List (String × Payment) :=
  xs.map (fun p => (p.id, p))

/-- Saving of payments: `list(self.payments.values())`. -/
def savePayments (m : List (String × Payment)) : CollJson Payment :=
  .jlist (m.map Prod.snd)

/-- Loading of customers: the keyed object is kept as an id-keyed mapping. -/
def loadCustomers (kvs : List (String × Customer)) : List (String × Customer) :=
  kvs

/-- Saving of customers: `json.dump(self.customers, ...)`, the keyed
object. -/
def saveCustomers (kvs : List (String × Customer)) : CollJson Customer :=
  .jobj kvs

/-! ## Concrete example inputs used by witnesses and counterexamples -/

/-- An empty store: its product reference index is empty. -/
def emptyStore : Store :=
  { products := [], customers := [], invoices := [], quotes := [], payments := [] }

/-- A quote used by the shape round-trip counterexample. -/
def quoteExample : Invoice :=
  { id := "q1", customerId := some "plettenberg_bay", lineItems := [] }

/-- A customer with one pricing sub-record whose ids embed the legacy product
id `outray` as a substring. -/
def pricingCustomerExample : Customer :=
  { id := "plettenberg_bay", parentCompanyId := none,
    customProductPricing :=
      [{ id := "pricing_outray_1", productId := "outray",
         prices := [{ id := "price_outray_a", amount := 100 }] }] }

/-- A small store exercising every collection of the product fixer. -/
def storeExample : Store :=
  { products := [{ id := "prod_outray", name := "Outray" }],
    customers := [pricingCustomerExample],
    invoices := [{ id := "i1", customerId := some "cust_plett",
                   lineItems := [{ id := "li_outray_1", productId := "outray", quantity := 2 }] }],
    quotes := [{ id := "q2", customerId := none,
                 lineItems := [{ id := "lq1", productId := "borki", quantity := 1 }] }],
    payments := [{ id := "p1", customerId := some "cust_plett",
                   allocatedInvoices := [{ invoiceId := some "i1", amount := 50 }] }] }

/-! ## Helper lemmas -/

/-- A found association binding is a member of the list. -/
theorem assocFind_mem {α : Type} {m : List (String × α)} {k : String} {v : α}
    (h : assocFind m k = some v) : (k, v) ∈ m := by
  unfold assocFind at h
  cases hf : m.find? (fun kv => kv.1 == k) with
  | none => rw [hf] at h; simp at h
  | some kv =>
    rw [hf] at h
    simp at h
    have hm := List.mem_of_find?_eq_some hf
    have hk : kv.1 = k := by
      have hp := List.find?_some hf
      simp at hp
      exact hp
    have hv : kv.2 = v := h
    cases kv with
    | mk a b =>
      simp only at hk hv
      rw [hk, hv] at hm
      exact hm

/-- A truthy lookup result comes from a member binding and is non-empty. -/
theorem lookupTruthy_mem {m : List (String × Option String)} {s t : String}
    (h : lookupTruthy m s = some t) : (s, some t) ∈ m ∧ (t == "") = false := by
  unfold lookupTruthy at h
  cases ha : assocFind m s with
  | none => rw [ha] at h; simp at h
  | some ov =>
    rw [ha] at h
    cases ov with
    | none => simp at h
    | some v =>
      by_cases hv : (v == "") = true
      · simp [hv] at h
      · simp only [Bool.not_eq_true] at hv
        simp [hv] at h
        rw [← h]
        exact ⟨assocFind_mem ha, hv⟩

/-- Under `mappingClosed`, the target of a truthy binding is not itself a
truthy key. -/
theorem mappingClosed_lookup {m : List (String × Option String)}
    (h : mappingClosed m = true) {s t : String}
    (hl : lookupTruthy m s = some t) : lookupTruthy m t = none := by
  obtain ⟨hmem, hne⟩ := lookupTruthy_mem hl
  have hall := List.all_eq_true.mp h _ hmem
  simp only [hne, Bool.false_or] at hall
  exact Option.isNone_iff_eq_none.mp hall

/-- Under `mappingClosed2`, the target of a binding is not itself a key. -/
theorem mappingClosed2_lookup {m : List (String × String)}
    (h : mappingClosed2 m = true) {s t : String}
    (hl : assocFind m s = some t) : assocFind m t = none := by
  have hmem := assocFind_mem hl
  have hall := List.all_eq_true.mp h _ hmem
  exact Option.isNone_iff_eq_none.mp hall

/-- Any identifier returned by the comprehensive propose function is a member
of the valid identifier set: every strategy either tests membership
explicitly or selects an element of the set. -/
theorem proposeComprehensive_mem {ref t : String} {valids : List String}
    (h : proposeComprehensive ref valids = some t) : t ∈ valids := by
  unfold proposeComprehensive at h
  split at h
  · next hc =>
    injection h with h
    rw [← h]
    have := (Bool.and_eq_true _ _).mp hc
    exact of_decide_eq_true this.2
  · split at h
    · next hc =>
      injection h with h
      rw [← h]
      have := (Bool.and_eq_true _ _).mp hc
      exact of_decide_eq_true this.2
    · split at h
      · next a hf =>
        injection h with h
        rw [← h]
        exact List.mem_of_find?_eq_some hf
      · exact List.mem_of_find?_eq_some h

/-- Second application of the pricing fix does nothing and matches nothing,
provided no mapping target is a truthy key. -/
theorem fixPricing_second {m : List (String × Option String)}
    (h : mappingClosed m = true) (p : Pricing) :
    fixPricing m (fixPricing m p) = fixPricing m p
      ∧ pricingMatched m (fixPricing m p) = false := by
  cases hl : lookupTruthy m p.productId with
  | none =>
    have hp : fixPricing m p = p := by unfold fixPricing; rw [hl]
    rw [hp]
    exact ⟨hp, by unfold pricingMatched; rw [hl]; rfl⟩
  | some n =>
    have h2 : lookupTruthy m n = none := mappingClosed_lookup h hl
    have hp : fixPricing m p =
        { id := strReplace p.id p.productId n,
          productId := n,
          prices := p.prices.map
            (fun pr => { pr with id := strReplace pr.id p.productId n }) } := by
      unfold fixPricing; rw [hl]
    rw [hp]
    constructor
    · unfold fixPricing
      simp only [h2]
    · unfold pricingMatched
      simp only [h2, Option.isNone_none, Option.isSome_none]

/-- Second application of the line-item fix does nothing and matches
nothing. -/
theorem fixLineItem_second {m : List (String × Option String)}
    (h : mappingClosed m = true) (it : LineItem) :
    fixLineItem m (fixLineItem m it) = fixLineItem m it
      ∧ itemMatched m (fixLineItem m it) = false := by
  cases hl : lookupTruthy m it.productId with
  | none =>
    have hp : fixLineItem m it = it := by unfold fixLineItem; rw [hl]
    rw [hp]
    exact ⟨hp, by unfold itemMatched; rw [hl]; rfl⟩
  | some n =>
    have h2 : lookupTruthy m n = none := mappingClosed_lookup h hl
    have hp : fixLineItem m it = { it with productId := n } := by
      unfold fixLineItem; rw [hl]
    rw [hp]
    constructor
    · unfold fixLineItem
      simp only [h2]
    · unfold itemMatched
      simp only [h2, Option.isSome_none]

/-- Second application of the customer fix to a whole customer record. -/
theorem fixCustomer_second {m : List (String × Option String)}
    (h : mappingClosed m = true) (c : Customer) :
    fixCustomer m (fixCustomer m c) = fixCustomer m c := by
  have hmap : (c.customProductPricing.map (fixPricing m)).map (fixPricing m)
      = c.customProductPricing.map (fixPricing m) := by
    rw [List.map_map]
    exact List.map_congr_left (fun p _ => (fixPricing_second h p).1)
  simp [fixCustomer, hmap]

/-- Second application of the line-item fix to a whole invoice. -/
theorem fixInvoiceItems_second {m : List (String × Option String)}
    (h : mappingClosed m = true) (inv : Invoice) :
    fixInvoiceItems m (fixInvoiceItems m inv) = fixInvoiceItems m inv := by
  have hmap : (inv.lineItems.map (fixLineItem m)).map (fixLineItem m)
      = inv.lineItems.map (fixLineItem m) := by
    rw [List.map_map]
    exact List.map_congr_left (fun it _ => (fixLineItem_second h it).1)
  simp [fixInvoiceItems, hmap]

/-- Second application of the invoice customer-reference fix. -/
theorem fixInvCust_second {m : List (String × String)}
    (h : mappingClosed2 m = true) (inv : Invoice) :
    fixInvCust m (fixInvCust m inv) = fixInvCust m inv
      ∧ ((fixInvCust m inv).customerId.bind (assocFind m)).isSome = false := by
  cases hc : inv.customerId with
  | none =>
    have hp : fixInvCust m inv = inv := by unfold fixInvCust; rw [hc]
    rw [hp]
    refine ⟨hp, ?_⟩
    rw [hc]
    rfl
  | some c =>
    cases ha : assocFind m c with
    | none =>
      have hp : fixInvCust m inv = inv := by
        unfold fixInvCust; rw [hc]; simp only [ha]
      rw [hp]
      refine ⟨hp, ?_⟩
      rw [hc]
      simp [ha]
    | some n =>
      have h2 : assocFind m n = none := mappingClosed2_lookup h ha
      have hp : fixInvCust m inv = { inv with customerId := some n } := by
        unfold fixInvCust; rw [hc]; simp only [ha]
      rw [hp]
      constructor
      · unfold fixInvCust
        simp only [h2]
      · simp [h2]

/-- Second application of the payment customer-reference fix. -/
theorem fixPayCust_second {m : List (String × String)}
    (h : mappingClosed2 m = true) (p : Payment) :
    fixPayCust m (fixPayCust m p) = fixPayCust m p
      ∧ ((fixPayCust m p).customerId.bind (assocFind m)).isSome = false := by
  cases hc : p.customerId with
  | none =>
    have hp : fixPayCust m p = p := by unfold fixPayCust; rw [hc]
    rw [hp]
    refine ⟨hp, ?_⟩
    rw [hc]
    rfl
  | some c =>
    cases ha : assocFind m c with
    | none =>
      have hp : fixPayCust m p = p := by
        unfold fixPayCust; rw [hc]; simp only [ha]
      rw [hp]
      refine ⟨hp, ?_⟩
      rw [hc]
      simp [ha]
    | some n =>
      have h2 : assocFind m n = none := mappingClosed2_lookup h ha
      have hp : fixPayCust m p = { p with customerId := some n } := by
        unfold fixPayCust; rw [hc]; simp only [ha]
      rw [hp]
      constructor
      · unfold fixPayCust
        simp only [h2]
      · simp [h2]

/-! ## Claim theorems -/

/-- C1 (amended): every mapping accepted by the customer reconciliation
builder of `create_comprehensive_customer_mapping` has a target in the
Reference Index (the valid customer ids), a source outside it, and is never a
self-mapping.  The hard-coded product mapping table, by contrast, is not
validated against the store (see the counterexample). -/
theorem C1_customer_mapping_targets_valid (invoices : List Invoice)
    (payments : List Payment) (valids : List String) :
    ∀ s t, (s, t) ∈ buildComprehensiveCustomerMapping invoices payments valids →
      t ∈ valids ∧ s ∉ valids ∧ s ≠ t := by
  intro s t hmem
  unfold buildComprehensiveCustomerMapping at hmem
  rw [List.mem_filterMap] at hmem
  obtain ⟨r, hr, hmap⟩ := hmem
  cases hp : proposeComprehensive r valids with
  | none => rw [hp] at hmap; simp at hmap
  | some u =>
    rw [hp] at hmap
    simp only [Option.map] at hmap
    have hpair : (r, u) = (s, t) := by injection hmap
    have hrs : r = s := congrArg Prod.fst hpair
    have hut : u = t := congrArg Prod.snd hpair
    have htv : t ∈ valids := hut ▸ proposeComprehensive_mem hp
    have hsv : s ∉ valids := by
      unfold invalidCustomerRefs at hr
      rw [List.mem_filter] at hr
      have hcond := hr.2
      rw [Bool.and_eq_true] at hcond
      have := hcond.2
      rw [Bool.not_eq_true'] at this
      rw [← hrs]
      exact of_decide_eq_false this
    exact ⟨htv, hsv, fun he => hsv (he ▸ htv)⟩

/-- C1 witness: a concrete invoice with the dangling reference `cust_plett`
and the valid set `{plett}` yields the accepted mapping
`cust_plett -> plett`, whose target is valid and distinct from its source. -/
theorem C1_customer_mapping_targets_valid_witness :
    ("cust_plett", "plett") ∈ buildComprehensiveCustomerMapping
        [{ id := "i1", customerId := some "cust_plett", lineItems := [] }] [] ["plett"]
      ∧ ("plett" ∈ ["plett"] ∧ "cust_plett" ∉ ["plett"] ∧ "cust_plett" ≠ "plett") :=
  ⟨by decide,
   C1_customer_mapping_targets_valid
     [{ id := "i1", customerId := some "cust_plett", lineItems := [] }] [] ["plett"]
     "cust_plett" "plett" (by decide)⟩

/-- C1 counterexample: `create_product_id_mapping` is a hard-coded table that
never consults the store, so against a store with an empty product collection
the accepted mapping `outray -> prod_outray` has a target that is not in the
product Reference Index. -/
theorem C1_product_mapping_unchecked_cex :
    ("outray", some "prod_outray") ∈ createProductIdMapping
      ∧ lookupTruthy createProductIdMapping "outray" = some "prod_outray"
      ∧ "prod_outray" ∉ productIdsOf emptyStore := by
  exact ⟨by decide, by decide, by decide⟩

/-- C2 (amended): the reference `"v"` is explicitly mapped to `None` in the
hard-coded product mapping (an entry distinct from having no entry), and the
product fixer therefore skips every record whose `productId` is `"v"`.  The
customer mapping builder, by contrast, can still map `"v"` through its
containment fallback (see the counterexample). -/
theorem C2_product_v_skip :
    assocFind createProductIdMapping "v" = some none
      ∧ lookupTruthy createProductIdMapping "v" = none
      ∧ (∀ it : LineItem, it.productId = "v" →
          fixLineItem createProductIdMapping it = it)
      ∧ (∀ p : Pricing, p.productId = "v" →
          fixPricing createProductIdMapping p = p) := by
  have hv : lookupTruthy createProductIdMapping "v" = none := by decide
  refine ⟨by decide, hv, ?_, ?_⟩
  · intro it h
    unfold fixLineItem
    rw [h, hv]
  · intro p h
    unfold fixPricing
    rw [h, hv]

/-- C2 witness: a concrete line item carrying the corrupt reference `"v"` is
left untouched by the product fixer. -/
theorem C2_product_v_skip_witness :
    ({ id := "li1", productId := "v", quantity := 1 } : LineItem).productId = "v"
      ∧ fixLineItem createProductIdMapping
          { id := "li1", productId := "v", quantity := 1 }
        = { id := "li1", productId := "v", quantity := 1 } :=
  ⟨rfl, C2_product_v_skip.2.2.1 _ rfl⟩

/-- C2 counterexample: with the valid identifier set `{vredendal}` the
comprehensive customer mapping builder maps the single stray character `"v"`
to `vredendal` through substring containment, so `proposeMapping` does not
return "no mapping" for `"v"` on every valid identifier set. -/
theorem C2_containment_guess_cex :
    proposeComprehensive "v" ["vredendal"] = some "vredendal"
      ∧ proposeComprehensive "v" ["vredendal"] ≠ none := by
  exact ⟨by decide, by decide⟩

/-- C5 (amended): the compound-split strategy of `create_customer_mapping`
tries the last `__`-part first and the first part only if the last is absent;
`create_comprehensive_customer_mapping` tries only the last part (its
compound strategy never considers the first part, which is instead left to
the containment fallback).  On the spec's example both builders return the
last segment `plettenberg_bay`. -/
theorem C5_compound_split (ref : String) (valids : List String)
    (h1 : strStartsWith ref "cust_" = true)
    (h2 : strDrop ref 5 ∉ valids)
    (h3 : strContains (strDrop ref 5) "__" = true) :
    (lastOrEmpty (strSplitOn (strDrop ref 5) "__") ∈ valids →
        proposeCustomerMapping ref valids
          = some (lastOrEmpty (strSplitOn (strDrop ref 5) "__")))
      ∧ (lastOrEmpty (strSplitOn (strDrop ref 5) "__") ∉ valids →
          headOrEmpty (strSplitOn (strDrop ref 5) "__") ∈ valids →
          proposeCustomerMapping ref valids
            = some (headOrEmpty (strSplitOn (strDrop ref 5) "__")))
      ∧ proposeComprehensive "cust_sportsmans_warehouse__plettenberg_bay"
          ["plettenberg_bay"] = some "plettenberg_bay"
      ∧ proposeCustomerMapping "cust_sportsmans_warehouse__plettenberg_bay"
          ["plettenberg_bay"] = some "plettenberg_bay" := by
  refine ⟨?_, ?_, by decide, by decide⟩
  · intro hl
    simp [proposeCustomerMapping, h1, h2, h3, hl]
  · intro hl hh
    simp [proposeCustomerMapping, h1, h2, h3, hl, hh]

/-- C5 witness: on `cust_biltong__plettenberg_bay` with only the last segment
valid, `create_customer_mapping` returns the last segment. -/
theorem C5_compound_split_witness :
    strStartsWith "cust_biltong__plettenberg_bay" "cust_" = true
      ∧ strDrop "cust_biltong__plettenberg_bay" 5 ∉ (["plettenberg_bay"] : List String)
      ∧ strContains (strDrop "cust_biltong__plettenberg_bay" 5) "__" = true
      ∧ lastOrEmpty (strSplitOn (strDrop "cust_biltong__plettenberg_bay" 5) "__")
          ∈ (["plettenberg_bay"] : List String)
      ∧ proposeCustomerMapping "cust_biltong__plettenberg_bay" ["plettenberg_bay"]
          = some (lastOrEmpty (strSplitOn (strDrop "cust_biltong__plettenberg_bay" 5) "__")) :=
  ⟨by decide, by decide, by decide, by decide,
   (C5_compound_split "cust_biltong__plettenberg_bay" ["plettenberg_bay"]
     (by decide) (by decide) (by decide)).1 (by decide)⟩

/-- C5 counterexample: for `cust_aaa__bbb` with valid set
`[xaaa_bbbx, aaa]`, the last segment `bbb` is absent and the first segment
`aaa` is present, yet `create_comprehensive_customer_mapping` returns
`xaaa_bbbx` (a containment-fallback choice), not the first part — so the
claimed last-then-first policy does not hold of that builder. -/
theorem C5_compound_split_cex :
    strStartsWith "cust_aaa__bbb" "cust_" = true
      ∧ strContains (strDrop "cust_aaa__bbb" 5) "__" = true
      ∧ lastOrEmpty (strSplitOn (strDrop "cust_aaa__bbb" 5) "__")
          ∉ (["xaaa_bbbx", "aaa"] : List String)
      ∧ headOrEmpty (strSplitOn (strDrop "cust_aaa__bbb" 5) "__")
          ∈ (["xaaa_bbbx", "aaa"] : List String)
      ∧ proposeComprehensive "cust_aaa__bbb" ["xaaa_bbbx", "aaa"] = some "xaaa_bbbx"
      ∧ proposeComprehensive "cust_aaa__bbb" ["xaaa_bbbx", "aaa"]
          ≠ some (headOrEmpty (strSplitOn (strDrop "cust_aaa__bbb" 5) "__")) := by
  exact ⟨by decide, by decide, by decide, by decide, by decide, by decide⟩

/-- C6: the prefix-strip strategy comes first in both customer mapping
builders: whenever the reference starts with `cust_` and the stripped
remainder is a valid identifier, that remainder is returned, with no other
condition consulted. -/
theorem C6_prefix_strip (ref : String) (valids : List String)
    (h1 : strStartsWith ref "cust_" = true) (h2 : strDrop ref 5 ∈ valids) :
    proposeCustomerMapping ref valids = some (strDrop ref 5)
      ∧ proposeComprehensive ref valids = some (strDrop ref 5) := by
  constructor
  · simp [proposeCustomerMapping, h1, h2]
  · simp [proposeComprehensive, h1, h2]

/-- C6 witness: `cust_plettenberg_bay` with valid set `{plettenberg_bay}`
maps to `plettenberg_bay` in both builders. -/
theorem C6_prefix_strip_witness :
    strStartsWith "cust_plettenberg_bay" "cust_" = true
      ∧ strDrop "cust_plettenberg_bay" 5 ∈ (["plettenberg_bay"] : List String)
      ∧ proposeCustomerMapping "cust_plettenberg_bay" ["plettenberg_bay"]
          = some "plettenberg_bay"
      ∧ proposeComprehensive "cust_plettenberg_bay" ["plettenberg_bay"]
          = some "plettenberg_bay" :=
  ⟨by decide, by decide,
   ((C6_prefix_strip "cust_plettenberg_bay" ["plettenberg_bay"]
      (by decide) (by decide)).1).trans (by decide),
   ((C6_prefix_strip "cust_plettenberg_bay" ["plettenberg_bay"]
      (by decide) (by decide)).2).trans (by decide)⟩

/-- C9: a customer reference that does not start with `cust_` gets no mapping
at all from `create_customer_mapping` and no dictionary entry from
`create_customer_id_mapping`, whatever the valid identifier set holds. -/
theorem C9_noncust_unmapped (ref : String) (valids : List String)
    (h : strStartsWith ref "cust_" = false) :
    proposeCustomerMapping ref valids = none
      ∧ createCustomerIdMappingEntry ref valids = none := by
  constructor
  · simp [proposeCustomerMapping, h]
  · simp [createCustomerIdMappingEntry, h]

/-- C9 witness: the reference `plettenberg_bay` (no `cust_` prefix) stays
unmapped even though it is itself a member of the valid set. -/
theorem C9_noncust_unmapped_witness :
    strStartsWith "plettenberg_bay" "cust_" = false
      ∧ proposeCustomerMapping "plettenberg_bay" ["plettenberg_bay"] = none
      ∧ createCustomerIdMappingEntry "plettenberg_bay" ["plettenberg_bay"] = none :=
  ⟨by decide,
   (C9_noncust_unmapped "plettenberg_bay" ["plettenberg_bay"] (by decide)).1,
   (C9_noncust_unmapped "plettenberg_bay" ["plettenberg_bay"] (by decide)).2⟩

/-- C3: applying an accepted identifier mapping twice yields the same store
as applying it once, and the second application reports zero fixes — both for
the product fixer `fix_product_references` and for the customer fixer
`apply_customer_fixes`.  The acceptance precondition is captured by
`mappingClosed`: no mapping target is itself a mapping source (which holds of
every accepted mapping, whose sources are invalid and whose targets are
valid). -/
theorem C3_applyMapping_idempotent (m : List (String × Option String))
    (m2 : List (String × String)) (st : Store)
    (invoices : List Invoice) (payments : List Payment)
    (h : mappingClosed m = true) (h2 : mappingClosed2 m2 = true) :
    (fixProductReferences m (fixProductReferences m st).1).1
        = (fixProductReferences m st).1
      ∧ (fixProductReferences m (fixProductReferences m st).1).2 = 0
      ∧ (applyCustomerFixes m2 (applyCustomerFixes m2 invoices payments).1.1
          (applyCustomerFixes m2 invoices payments).1.2).1
        = (applyCustomerFixes m2 invoices payments).1
      ∧ (applyCustomerFixes m2 (applyCustomerFixes m2 invoices payments).1.1
          (applyCustomerFixes m2 invoices payments).1.2).2 = 0 := by
  have hcmap : ∀ l : List Customer,
      (l.map (fixCustomer m)).map (fixCustomer m) = l.map (fixCustomer m) := by
    intro l
    rw [List.map_map]
    exact List.map_congr_left (fun c _ => fixCustomer_second h c)
  have himap : ∀ l : List Invoice,
      (l.map (fixInvoiceItems m)).map (fixInvoiceItems m) = l.map (fixInvoiceItems m) := by
    intro l
    rw [List.map_map]
    exact List.map_congr_left (fun i _ => fixInvoiceItems_second h i)
  have hzc : ∀ l : List Customer,
      ((l.map (fixCustomer m)).map
        (fun c => c.customProductPricing.countP (pricingMatched m))).sum = 0 := by
    intro l
    rw [List.map_map]
    apply List.sum_eq_zero
    intro x hx
    rw [List.mem_map] at hx
    obtain ⟨c, _, hcx⟩ := hx
    rw [← hcx]
    show ((fixCustomer m c).customProductPricing.countP (pricingMatched m)) = 0
    show ((c.customProductPricing.map (fixPricing m)).countP (pricingMatched m)) = 0
    rw [List.countP_map]
    exact List.countP_eq_zero.mpr (fun p _ => by
      show ¬ (pricingMatched m (fixPricing m p) = true)
      rw [(fixPricing_second h p).2]
      exact Bool.false_ne_true)
  have hzi : ∀ l : List Invoice,
      ((l.map (fixInvoiceItems m)).map
        (fun i => i.lineItems.countP (itemMatched m))).sum = 0 := by
    intro l
    rw [List.map_map]
    apply List.sum_eq_zero
    intro x hx
    rw [List.mem_map] at hx
    obtain ⟨i, _, hix⟩ := hx
    rw [← hix]
    show ((fixInvoiceItems m i).lineItems.countP (itemMatched m)) = 0
    show ((i.lineItems.map (fixLineItem m)).countP (itemMatched m)) = 0
    rw [List.countP_map]
    exact List.countP_eq_zero.mpr (fun it _ => by
      show ¬ (itemMatched m (fixLineItem m it) = true)
      rw [(fixLineItem_second h it).2]
      exact Bool.false_ne_true)
  have hinv2 : (invoices.map (fixInvCust m2)).map (fixInvCust m2)
      = invoices.map (fixInvCust m2) := by
    rw [List.map_map]
    exact List.map_congr_left (fun i _ => (fixInvCust_second h2 i).1)
  have hpay2 : (payments.map (fixPayCust m2)).map (fixPayCust m2)
      = payments.map (fixPayCust m2) := by
    rw [List.map_map]
    exact List.map_congr_left (fun p _ => (fixPayCust_second h2 p).1)
  have hinvz : (invoices.map (fixInvCust m2)).countP
      (fun i => (i.customerId.bind (assocFind m2)).isSome) = 0 := by
    rw [List.countP_map]
    exact List.countP_eq_zero.mpr (fun i _ => by
      show ¬ (((fixInvCust m2 i).customerId.bind (assocFind m2)).isSome = true)
      rw [(fixInvCust_second h2 i).2]
      exact Bool.false_ne_true)
  have hpayz : (payments.map (fixPayCust m2)).countP
      (fun p => (p.customerId.bind (assocFind m2)).isSome) = 0 := by
    rw [List.countP_map]
    exact List.countP_eq_zero.mpr (fun p _ => by
      show ¬ (((fixPayCust m2 p).customerId.bind (assocFind m2)).isSome = true)
      rw [(fixPayCust_second h2 p).2]
      exact Bool.false_ne_true)
  refine ⟨?_, ?_, ?_, ?_⟩
  · show (Store.mk st.products
        ((st.customers.map (fixCustomer m)).map (fixCustomer m))
        ((st.invoices.map (fixInvoiceItems m)).map (fixInvoiceItems m))
        ((st.quotes.map (fixInvoiceItems m)).map (fixInvoiceItems m))
        st.payments)
      = Store.mk st.products (st.customers.map (fixCustomer m))
          (st.invoices.map (fixInvoiceItems m)) (st.quotes.map (fixInvoiceItems m))
          st.payments
    rw [hcmap st.customers, himap st.invoices, himap st.quotes]
  · show ((st.customers.map (fixCustomer m)).map
        (fun c => c.customProductPricing.countP (pricingMatched m))).sum
      + ((st.invoices.map (fixInvoiceItems m)).map
          (fun i => i.lineItems.countP (itemMatched m))).sum
      + ((st.quotes.map (fixInvoiceItems m)).map
          (fun i => i.lineItems.countP (itemMatched m))).sum = 0
    rw [hzc st.customers, hzi st.invoices, hzi st.quotes]
  · show ((invoices.map (fixInvCust m2)).map (fixInvCust m2),
        (payments.map (fixPayCust m2)).map (fixPayCust m2))
      = (invoices.map (fixInvCust m2), payments.map (fixPayCust m2))
    rw [hinv2, hpay2]
  · show (invoices.map (fixInvCust m2)).countP
        (fun i => (i.customerId.bind (assocFind m2)).isSome)
      + (payments.map (fixPayCust m2)).countP
          (fun p => (p.customerId.bind (assocFind m2)).isSome) = 0
    rw [hinvz, hpayz]

/-- C3 witness: the hard-coded product mapping and a one-entry customer
mapping are closed (no target is a source), and the idempotence conclusion
holds of the concrete example store. -/
theorem C3_applyMapping_idempotent_witness :
    mappingClosed createProductIdMapping = true
      ∧ mappingClosed2 [("cust_plett", "plett")] = true
      ∧ ((fixProductReferences createProductIdMapping
            (fixProductReferences createProductIdMapping storeExample).1).1
          = (fixProductReferences createProductIdMapping storeExample).1
        ∧ (fixProductReferences createProductIdMapping
            (fixProductReferences createProductIdMapping storeExample).1).2 = 0
        ∧ (applyCustomerFixes [("cust_plett", "plett")]
            (applyCustomerFixes [("cust_plett", "plett")]
              storeExample.invoices storeExample.payments).1.1
            (applyCustomerFixes [("cust_plett", "plett")]
              storeExample.invoices storeExample.payments).1.2).1
          = (applyCustomerFixes [("cust_plett", "plett")]
              storeExample.invoices storeExample.payments).1
        ∧ (applyCustomerFixes [("cust_plett", "plett")]
            (applyCustomerFixes [("cust_plett", "plett")]
              storeExample.invoices storeExample.payments).1.1
            (applyCustomerFixes [("cust_plett", "plett")]
              storeExample.invoices storeExample.payments).1.2).2 = 0) :=
  ⟨by decide, by decide,
   C3_applyMapping_idempotent createProductIdMapping [("cust_plett", "plett")]
     storeExample storeExample.invoices storeExample.payments
     (by decide) (by decide)⟩

/-- C4: applying a product-id mapping to a customer rewrites each matching
pricing sub-record by replacing its `productId` with the target and replacing
every literal occurrence of the old identifier in the pricing record id and
in each nested price id; and when every pricing reference of the customer is
either already valid or mapped to a valid target, the product-reference
verifier reports zero violations for that customer afterwards. -/
theorem C4_cascading_pricing_fix (m : List (String × Option String))
    (validP : List String) (c : Customer)
    (h : c.customProductPricing.all (fun p =>
        match lookupTruthy m p.productId with
        | some t => decide (t ∈ validP)
        | none => decide (p.productId ∈ validP)) = true) :
    customerPricingViolations validP (fixCustomer m c) = []
      ∧ ∀ p ∈ c.customProductPricing, ∀ t, lookupTruthy m p.productId = some t →
          fixPricing m p =
            { id := strReplace p.id p.productId t,
              productId := t,
              prices := p.prices.map
                (fun pr => { pr with id := strReplace pr.id p.productId t }) } := by
  constructor
  · unfold customerPricingViolations
    rw [List.map_eq_nil_iff, List.filter_eq_nil_iff]
    intro p hp
    have hp' : p ∈ c.customProductPricing.map (fixPricing m) := hp
    rw [List.mem_map] at hp'
    obtain ⟨q, hq, hpq⟩ := hp'
    have hall := List.all_eq_true.mp h q hq
    rw [← hpq]
    cases hl : lookupTruthy m q.productId with
    | some t =>
      rw [hl] at hall
      have ht : t ∈ validP := of_decide_eq_true hall
      have hfix : (fixPricing m q).productId = t := by unfold fixPricing; rw [hl]
      simp [hfix, ht]
    | none =>
      rw [hl] at hall
      have ht : q.productId ∈ validP := of_decide_eq_true hall
      have hfix : fixPricing m q = q := by unfold fixPricing; rw [hl]
      simp [hfix, ht]
  · intro p _ t ht
    unfold fixPricing
    rw [ht]

/-- C4 witness: the example customer holding the legacy reference `outray`
with embedded ids is fully repaired by the hard-coded product mapping: the
violation list becomes empty and the pricing record is rewritten field by
field. -/
theorem C4_cascading_pricing_fix_witness :
    (pricingCustomerExample.customProductPricing.all (fun p =>
        match lookupTruthy createProductIdMapping p.productId with
        | some t => decide (t ∈ ["prod_outray"])
        | none => decide (p.productId ∈ ["prod_outray"])) = true)
      ∧ customerPricingViolations ["prod_outray"]
          (fixCustomer createProductIdMapping pricingCustomerExample) = []
      ∧ fixCustomer createProductIdMapping pricingCustomerExample
          = { id := "plettenberg_bay", parentCompanyId := none,
              customProductPricing :=
                [{ id := "pricing_prod_outray_1", productId := "prod_outray",
                   prices := [{ id := "price_prod_outray_a", amount := 100 }] }] } :=
  ⟨by decide,
   (C4_cascading_pricing_fix createProductIdMapping ["prod_outray"]
     pricingCustomerExample (by decide)).1,
   by decide⟩

/-- C7: the integrity verifier accumulates every violation across all
relationship kinds — each violation list counts one entry per reference
occurrence failing its validity test, the total is the sum over all six
kinds, and the terminal status is success exactly when the total is zero
(equivalently, when every violation list is empty). -/
theorem C7_verifier_accumulates (st : Store) :
    (verifySuccess st = true ↔ totalErrors st = 0)
      ∧ (verifySuccess st = true ↔
          ((verifyReport st).customerProductErrors = []
            ∧ (verifyReport st).invoiceCustomerErrors = []
            ∧ (verifyReport st).invoiceProductErrors = []
            ∧ (verifyReport st).paymentCustomerErrors = []
            ∧ (verifyReport st).paymentInvoiceErrors = []
            ∧ (verifyReport st).parentErrors = []))
      ∧ (verifyReport st).customerProductErrors.length
          = (st.customers.map (fun c => c.customProductPricing.countP
              (fun p => !(decide (p.productId ∈ productIdsOf st))))).sum
      ∧ (verifyReport st).invoiceCustomerErrors.length
          = st.invoices.countP (fun inv => badOptRef (customerIdsOf st) inv.customerId)
      ∧ (verifyReport st).invoiceProductErrors.length
          = (st.invoices.map (fun inv => inv.lineItems.countP
              (fun it => it.productId != ""
                && !(decide (it.productId ∈ productIdsOf st))))).sum
      ∧ (verifyReport st).paymentCustomerErrors.length
          = st.payments.countP (fun p => badOptRef (customerIdsOf st) p.customerId)
      ∧ (verifyReport st).paymentInvoiceErrors.length
          = (st.payments.map (fun p => p.allocatedInvoices.countP
              (fun a => badOptRef (invoiceIdsOf st) a.invoiceId))).sum
      ∧ (verifyReport st).parentErrors.length
          = st.customers.countP (fun c => badOptRef (customerIdsOf st) c.parentCompanyId) := by
  have hflat : ∀ {α β : Type} (l : List α) (pred : β → Bool)
      (f : α → List β) (g : α → β → Violation),
      ((l.map (fun a => ((f a).filter pred).map (g a))).flatten).length
        = (l.map (fun a => (f a).countP pred)).sum := by
    intro α β l pred f g
    rw [List.length_flatten, List.map_map]
    congr 1
    apply List.map_congr_left
    intro a _
    show (((f a).filter pred).map (g a)).length = (f a).countP pred
    rw [List.length_map]
    exact (List.countP_eq_length_filter _ _).symm
  have hfilt : ∀ {α : Type} (l : List α) (pred : α → Bool) (g : α → Violation),
      ((l.filter pred).map g).length = l.countP pred := by
    intro α l pred g
    rw [List.length_map]
    exact (List.countP_eq_length_filter _ _).symm
  refine ⟨?_, ?_, ?_, ?_, ?_, ?_, ?_, ?_⟩
  · unfold verifySuccess
    simp
  · unfold verifySuccess totalErrors
    simp [Nat.add_eq_zero, List.length_eq_zero]
    tauto
  · exact hflat st.customers _ (fun c => c.customProductPricing) (fun c p => Violation.mk c.id p.productId)
  · exact hfilt st.invoices _ (fun inv => Violation.mk inv.id (inv.customerId.getD ""))
  · exact hflat st.invoices _ (fun inv => inv.lineItems) (fun inv it => Violation.mk inv.id it.productId)
  · exact hfilt st.payments _ (fun p => Violation.mk p.id (p.customerId.getD ""))
  · exact hflat st.payments _ (fun p => p.allocatedInvoices) (fun p a => Violation.mk p.id (a.invoiceId.getD ""))
  · exact hfilt st.customers _ (fun c => Violation.mk c.id (c.parentCompanyId.getD ""))

/-- C8 (amended): invoices, payments and quotes loaded from flat-list files
are written back as flat lists with their records preserved, and the
customers keyed object is written back as a keyed object; but a quotes file
in keyed-object form — the one collection loaded form-agnostically — is
always written back as a flat list. -/
theorem C8_shape_roundtrip (xs : List Invoice) (ys : List Payment)
    (kvs : List (String × Customer)) (qs : List (String × Invoice)) :
    saveInvoices (loadInvoices xs) = CollJson.jlist xs
      ∧ savePayments (loadPayments ys) = CollJson.jlist ys
      ∧ saveQuotes (loadQuotes (CollJson.jlist xs)) = CollJson.jlist xs
      ∧ saveCustomers (loadCustomers kvs) = CollJson.jobj kvs
      ∧ isListForm (saveQuotes (loadQuotes (CollJson.jobj qs))) = true := by
  refine ⟨?_, ?_, ?_, rfl, rfl⟩
  · show CollJson.jlist ((xs.map (fun i => (i.id, i))).map Prod.snd) = CollJson.jlist xs
    rw [List.map_map]
    exact congrArg CollJson.jlist (List.map_id'' (fun _ => rfl) xs)
  · show CollJson.jlist ((ys.map (fun p => (p.id, p))).map Prod.snd) = CollJson.jlist ys
    rw [List.map_map]
    exact congrArg CollJson.jlist (List.map_id'' (fun _ => rfl) ys)
  · show CollJson.jlist ((xs.map (fun q => (q.id, q))).map Prod.snd) = CollJson.jlist xs
    rw [List.map_map]
    exact congrArg CollJson.jlist (List.map_id'' (fun _ => rfl) xs)

/-- C8 counterexample: a quotes file in keyed-object form round-trips (zero
mutations) to a flat list — the list-vs-object shape convention of that file
is not preserved. -/
theorem C8_quotes_shape_cex :
    isListForm (CollJson.jobj [("q1", quoteExample)]) = false
      ∧ saveQuotes (loadQuotes (CollJson.jobj [("q1", quoteExample)]))
          = CollJson.jlist [quoteExample]
      ∧ isListForm (saveQuotes (loadQuotes (CollJson.jobj [("q1", quoteExample)]))) = true :=
  ⟨rfl, rfl, rfl⟩

/-- C10: applying a product-id mapping to invoice (and quote) line items
replaces only the `productId` of matching items: the invoice id, its customer
reference and every line item id and quantity are unchanged — even when a
line item id embeds the old product identifier as a substring — and the store
level fixer treats invoices and quotes with exactly this per-item rewrite,
the substring cascade being reserved to customer pricing records. -/
theorem C10_line_item_frame (m : List (String × Option String)) (inv : Invoice) :
    (fixInvoiceItems m inv).id = inv.id
      ∧ (fixInvoiceItems m inv).customerId = inv.customerId
      ∧ (fixInvoiceItems m inv).lineItems.map LineItem.id
          = inv.lineItems.map LineItem.id
      ∧ (fixInvoiceItems m inv).lineItems.map LineItem.quantity
          = inv.lineItems.map LineItem.quantity
      ∧ (fixInvoiceItems m inv).lineItems.map LineItem.productId
          = inv.lineItems.map (fun it =>
              match lookupTruthy m it.productId with
              | some n => n
              | none => it.productId)
      ∧ (∀ st : Store, (fixProductReferences m st).1.invoices
            = st.invoices.map (fixInvoiceItems m)
          ∧ (fixProductReferences m st).1.quotes
            = st.quotes.map (fixInvoiceItems m))
      ∧ fixLineItem createProductIdMapping
            { id := "li_outray_1", productId := "outray", quantity := 2 }
          = { id := "li_outray_1", productId := "prod_outray", quantity := 2 } := by
  refine ⟨rfl, rfl, ?_, ?_, ?_, fun st => ⟨rfl, rfl⟩, by decide⟩
  · show (inv.lineItems.map (fixLineItem m)).map LineItem.id
        = inv.lineItems.map LineItem.id
    rw [List.map_map]
    apply List.map_congr_left
    intro it _
    show (fixLineItem m it).id = it.id
    unfold fixLineItem
    cases hl : lookupTruthy m it.productId with
    | some n => rfl
    | none => rfl
  · show (inv.lineItems.map (fixLineItem m)).map LineItem.quantity
        = inv.lineItems.map LineItem.quantity
    rw [List.map_map]
    apply List.map_congr_left
    intro it _
    show (fixLineItem m it).quantity = it.quantity
    unfold fixLineItem
    cases hl : lookupTruthy m it.productId with
    | some n => rfl
    | none => rfl
  · show (inv.lineItems.map (fixLineItem m)).map LineItem.productId
        = inv.lineItems.map (fun it =>
            match lookupTruthy m it.productId with
            | some n => n
            | none => it.productId)
    rw [List.map_map]
    apply List.map_congr_left
    intro it _
    show (fixLineItem m it).productId
        = (match lookupTruthy m it.productId with
           | some n => n
           | none => it.productId)
    unfold fixLineItem
    cases hl : lookupTruthy m it.productId with
    | some n => rfl
    | none => rfl

end Snowva
